import Mathlib

/-!
Shallow embedding of the browser client in static/script.js of the
lets_connect repository, together with theorems checking the specified
behaviour of its message handlers.

The script keeps mutable globals (ws, peerConnection, localStream,
connected) plus DOM state (status text and dot class, chat log, inputs,
button disabled flags).  We model those globals and the DOM pieces the
handlers touch as one record, and every event handler as a pure function
from that record to a new record together with the list of messages the
handler actually transmits over the control channel via sendWs.

Session-description and candidate payloads are opaque blobs both to the
coordinator and to this client (the script forwards them to the
RTCPeerConnection API without inspection), so they are modelled as Nat.
-/

namespace LetsConnect

/-- Opaque session-description / candidate blob. -/
abbrev Sdp := Nat

/-- WebSocket.readyState values. -/
inductive ReadyState
  | CONNECTING
  | OPEN
  | CLOSING
  | CLOSED
deriving DecidableEq, Repr

/-- The status dot class set by updateStatus. -/
inductive StatusState
  | waiting
  | connected
  | disconnected
deriving DecidableEq, Repr

/-- Author label of a chat-log entry, as used by appendMessage. -/
inductive ChatKind
  | you
  | stranger
  | system
deriving DecidableEq, Repr

/-- Media attachment rendered inside a chat-log entry. -/
structure Attachment where
  mimeType : String
  dataUrl : String
deriving DecidableEq, Repr

/-- One chat-log entry produced by appendMessage. -/
structure ChatEntry where
  kind : ChatKind
  text : String
  media : Option Attachment
deriving DecidableEq, Repr

/-- The slice of RTCPeerConnection state the script drives: the local and
remote session descriptions and the queued remote candidates. -/
structure PC where
  localDesc : Option Sdp
  remoteDesc : Option Sdp
  candidates : List Sdp
deriving DecidableEq, Repr

/-- A file selected in the file input: name, MIME type reported by the
browser (empty string when unknown), byte size, and its content as read
by FileReader.readAsDataURL (kept opaque). -/
structure JsFile where
  name : String
  type : String
  size : Nat
  content : String
deriving DecidableEq, Repr

/-- Messages the client sends over the control channel. -/
inductive ClientMsg
  | offer (payload : Sdp)
  | answer (payload : Sdp)
  | ice_candidate (payload : Sdp)
  | chat (text : String)
  | media (fileName mimeType dataUrl text : String)
  | next
deriving DecidableEq, Repr

/-- Messages the client receives over the control channel, after JSON
parsing.  Optional string fields model fields that may be absent. -/
inductive ServerMsg
  | connected
  | status (message : Option String)
  | matched (isInitiator : Bool)
  | offer (payload : Sdp)
  | answer (payload : Sdp)
  | ice_candidate (payload : Option Sdp)
  | chat (text : Option String)
  | media (text mimeType dataUrl : Option String)
  | partner_disconnected (message : Option String)
  | error (message : Option String)
  | unknown
deriving DecidableEq, Repr

/-- The mutable globals of the script plus the DOM state its handlers
read and write. -/
structure ClientState where
  ws : Option ReadyState
  peerConnection : Option PC
  localStream : Bool
  connected : Bool
  statusState : StatusState
  statusText : String
  remoteVideoSrc : Option Nat
  startBtnDisabled : Bool
  nextBtnDisabled : Bool
  chatLog : List ChatEntry
  chatInput : String
  fileInput : Option JsFile
deriving DecidableEq, Repr

/-- JavaScript disjunction on an optional string field, as in the idiom
`data.message || fallback`: null, undefined and the empty string are all
falsy and select the fallback. -/
def jsOr : Option String → String → String
  | some s, d => if s = "" then d else s
  | none, d => d

/-- updateStatus: sets the status text and swaps the status dot class. -/
def updateStatus (s : ClientState) (state : StatusState) (text : String) : ClientState :=
  { s with statusState := state, statusText := text }

/-- appendMessage: appends one entry to the chat log. -/
def appendMessage (s : ClientState) (kind : ChatKind) (text : String)
    (media : Option Attachment) : ClientState :=
  { s with chatLog := s.chatLog ++ [{ kind := kind, text := text, media := media }] }

/-- closePeerConnection: closes and drops any peer connection and clears
the remote video element unconditionally. -/
def closePeerConnection (s : ClientState) : ClientState :=
  { s with peerConnection := none, remoteVideoSrc := none }

/-- createPeerConnection: closes any existing peer connection, then
installs a fresh one with no descriptions set.  Local tracks and the
icecandidate / track callbacks act on media objects outside this model. -/
def createPeerConnection (s : ClientState) : ClientState :=
  let s1 := closePeerConnection s
  { s1 with peerConnection := some { localDesc := none, remoteDesc := none, candidates := [] } }

/-- sendWs: transmits the message only when the socket exists and its
readyState is OPEN; otherwise the message is dropped without error.  The
result is the list of messages actually put on the wire. -/
def sendWs (s : ClientState) (m : ClientMsg) : List ClientMsg :=
  match s.ws with
  | some ReadyState.OPEN => [m]
  | _ => []

/-- Opaque description produced by RTCPeerConnection.createOffer. -/
def createOffer : Sdp := 0

/-- Opaque description produced by RTCPeerConnection.createAnswer. -/
def createAnswer : Sdp := 1

/-- peerConnection.setLocalDescription on the current peer connection. -/
def setLocalDescription (s : ClientState) (d : Sdp) : ClientState :=
  { s with peerConnection := s.peerConnection.map (fun pc => { pc with localDesc := some d }) }

/-- peerConnection.setRemoteDescription on the current peer connection. -/
def setRemoteDescription (s : ClientState) (d : Sdp) : ClientState :=
  { s with peerConnection := s.peerConnection.map (fun pc => { pc with remoteDesc := some d }) }

/-- peerConnection.addIceCandidate on the current peer connection. -/
def addIceCandidate (s : ClientState) (c : Sdp) : ClientState :=
  { s with peerConnection := s.peerConnection.map (fun pc => { pc with candidates := pc.candidates ++ [c] }) }

/-- handleMatched: marks the client connected, enables Next, shows the
connected status, logs a system line, rebuilds the peer connection, and,
when this side is the designated initiator, creates an offer, installs it
as the local description and sends it via sendWs. -/
def handleMatched (s : ClientState) (isInitiator : Bool) : ClientState × List ClientMsg :=
  let s1 := { s with connected := true, nextBtnDisabled := false }
  let s2 := updateStatus s1 StatusState.connected "Connected"
  let s3 := appendMessage s2 ChatKind.system "You are now connected to a stranger." none
  let s4 := createPeerConnection s3
  if isInitiator then
    let offer := createOffer
    let s5 := setLocalDescription s4 offer
    (s5, sendWs s5 (ClientMsg.offer offer))
  else
    (s4, [])

/-- resetForWaiting: clears the connected flag, closes the peer
connection and shows the waiting status with the given message. -/
def resetForWaiting (s : ClientState) (msg : String) : ClientState :=
  let s1 := { s with connected := false }
  let s2 := closePeerConnection s1
  updateStatus s2 StatusState.waiting msg

/-- ws.onmessage: dispatch on the parsed message type, returning the new
client state and the messages transmitted in response. -/
def onMessage (s : ClientState) (m : ServerMsg) : ClientState × List ClientMsg :=
  match m with
  | ServerMsg.connected => (s, [])
  | ServerMsg.status message =>
      (resetForWaiting s (jsOr message "Waiting for a stranger..."), [])
  | ServerMsg.matched isInitiator => handleMatched s isInitiator
  | ServerMsg.offer payload =>
      let s1 := if s.peerConnection.isNone then createPeerConnection s else s
      let s2 := setRemoteDescription s1 payload
      let answer := createAnswer
      let s3 := setLocalDescription s2 answer
      (s3, sendWs s3 (ClientMsg.answer answer))
  | ServerMsg.answer payload =>
      (if s.peerConnection.isSome then setRemoteDescription s payload else s, [])
  | ServerMsg.ice_candidate payload =>
      match s.peerConnection.isSome, payload with
      | true, some c => (addIceCandidate s c, [])
      | _, _ => (s, [])
  | ServerMsg.chat text =>
      (appendMessage s ChatKind.stranger (jsOr text "") none, [])
  | ServerMsg.media text mimeType dataUrl =>
      (appendMessage s ChatKind.stranger (jsOr text "Shared a file")
        (some { mimeType := jsOr mimeType "application/octet-stream",
                dataUrl := jsOr dataUrl "" }), [])
  | ServerMsg.partner_disconnected message =>
      let s1 := appendMessage s ChatKind.system (jsOr message "Stranger disconnected.") none
      (resetForWaiting s1 "Waiting for a stranger...", [])
  | ServerMsg.error message =>
      (appendMessage s ChatKind.system (jsOr message "Server error.") none, [])
  | ServerMsg.unknown => (s, [])

/-- connectWebSocket: installs a fresh WebSocket, which starts in the
CONNECTING state; the onopen and onmessage callbacks fire later. -/
def connectWebSocket (s : ClientState) : ClientState :=
  { s with ws := some ReadyState.CONNECTING }

/-- ensureLocalMedia: succeeds immediately when a stream is already held;
otherwise the getUserMedia outcome is the environment input mediaOk, and
failure is modelled as none (the awaited promise rejects). -/
def ensureLocalMedia (s : ClientState) (mediaOk : Bool) : Option ClientState :=
  if s.localStream then some s
  else if mediaOk then some { s with localStream := true }
  else none

/-- Start button click handler: disables Start, tries to acquire local
media; on success opens the control channel and enables Next, on failure
re-enables Start and shows the disconnected status. -/
def startClick (s : ClientState) (mediaOk : Bool) : ClientState :=
  let s1 := { s with startBtnDisabled := true }
  match ensureLocalMedia s1 mediaOk with
  | some s2 =>
      let s3 := connectWebSocket s2
      let s4 := { s3 with nextBtnDisabled := false }
      appendMessage s4 ChatKind.system "Camera and microphone enabled." none
  | none =>
      let s2 := { s1 with startBtnDisabled := false }
      let s3 := updateStatus s2 StatusState.disconnected "Permissions required"
      appendMessage s3 ChatKind.system "Could not access camera/microphone." none

/-- Next button click handler: returns early unless the socket is OPEN;
otherwise logs a line, resets to waiting and sends a bare next message. -/
def nextClick (s : ClientState) : ClientState × List ClientMsg :=
  if s.ws = some ReadyState.OPEN then
    let s1 := appendMessage s ChatKind.system "Searching for a new stranger..." none
    let s2 := resetForWaiting s1 "Waiting for a stranger..."
    (s2, sendWs s2 ClientMsg.next)
  else
    (s, [])

/-- JavaScript String.prototype.trim: strips whitespace from both ends. -/
def jsTrim (s : String) : String :=
  ⟨((s.data.dropWhile Char.isWhitespace).reverse.dropWhile Char.isWhitespace).reverse⟩

/-- sendTextMessage: on chat-form submit, trims the input and returns
early when it is empty or the client is not connected; otherwise sends
the chat message, logs it and clears the input. -/
def sendTextMessage (s : ClientState) : ClientState × List ClientMsg :=
  let text := jsTrim s.chatInput
  if text = "" ∨ s.connected = false then
    (s, [])
  else
    let out := sendWs s (ClientMsg.chat text)
    let s1 := appendMessage s ChatKind.you text none
    ({ s1 with chatInput := "" }, out)

/-- FileReader.readAsDataURL result for the selected file, opaque. -/
def fileToDataUrl (f : JsFile) : String := f.content

/-- sendFileMessage: on file-input change, returns early when no file is
selected or the client is not connected; rejects files over 8 MiB with a
local system message and clears the input; otherwise builds the media
payload and sends it, logs it and clears the input. -/
def sendFileMessage (s : ClientState) : ClientState × List ClientMsg :=
  match s.fileInput with
  | none => (s, [])
  | some file =>
      if s.connected = false then
        (s, [])
      else
        let maxSize := 8 * 1024 * 1024
        if file.size > maxSize then
          let s1 := appendMessage s ChatKind.system "File too large. Max allowed is 8MB for MVP." none
          ({ s1 with fileInput := none }, [])
        else
          let dataUrl := fileToDataUrl file
          let mimeType := if file.type = "" then "application/octet-stream" else file.type
          let text := "Shared " ++ file.name
          let out := sendWs s (ClientMsg.media file.name mimeType dataUrl text)
          let s1 := appendMessage s ChatKind.you text (some { mimeType := mimeType, dataUrl := dataUrl })
          ({ s1 with fileInput := none }, out)

/-- A waiting client with an open socket and acquired media. -/
def baseState : ClientState :=
  { ws := some ReadyState.OPEN, peerConnection := none, localStream := true,
    connected := false, statusState := StatusState.waiting,
    statusText := "Waiting for a stranger...", remoteVideoSrc := none,
    startBtnDisabled := true, nextBtnDisabled := true,
    chatLog := [], chatInput := "", fileInput := none }

/-- The page-load state: no socket, no media, Start enabled. -/
def freshState : ClientState :=
  { ws := none, peerConnection := none, localStream := false,
    connected := false, statusState := StatusState.disconnected,
    statusText := "", remoteVideoSrc := none,
    startBtnDisabled := false, nextBtnDisabled := true,
    chatLog := [], chatInput := "", fileInput := none }

/-- A matched client with a live peer connection. -/
def matchedState : ClientState :=
  { baseState with
    connected := true
    nextBtnDisabled := false
    statusState := StatusState.connected
    statusText := "Connected"
    peerConnection := some { localDesc := some createOffer, remoteDesc := none, candidates := [] } }

/-- A small image file within the size limit. -/
def demoFile : JsFile :=
  { name := "cat.png", type := "image/png", size := 1024, content := "dataurlcat" }

/-- A file over the 8 MiB guardrail. -/
def bigFile : JsFile :=
  { name := "movie.mp4", type := "video/mp4", size := 9 * 1024 * 1024, content := "dataurlmovie" }

/-- A connected client with text typed into the chat input. -/
def chatState : ClientState :=
  { baseState with connected := true, chatInput := "  hi  " }

/-- A connected client with the small file selected. -/
def fileState : ClientState :=
  { baseState with connected := true, fileInput := some demoFile }

/-- A connected client with the oversized file selected. -/
def bigFileState : ClientState :=
  { baseState with connected := true, fileInput := some bigFile }

/-- A waiting (unmatched) client with the oversized file selected. -/
def idleBigFileState : ClientState :=
  { baseState with fileInput := some bigFile }

/-- sendWs in closed form: the message goes out exactly when the socket
exists and is OPEN. -/
theorem sendWs_ite (s : ClientState) (m : ClientMsg) :
    sendWs s m = if s.ws = some ReadyState.OPEN then [m] else [] := by
  unfold sendWs
  rcases s.ws with _ | rs
  · simp
  · cases rs <;> simp

/-- sendWs emits at most the message it was given. -/
theorem sendWs_eq_nil_or_singleton (s : ClientState) (m : ClientMsg) :
    sendWs s m = [] ∨ sendWs s m = [m] := by
  rw [sendWs_ite]
  by_cases h : s.ws = some ReadyState.OPEN
  · exact Or.inr (if_pos h)
  · exact Or.inl (if_neg h)

/-- C1: on a matched message with isInitiator true the client rebuilds a
fresh peer connection, installs the created offer as its local
description, and transmits exactly one message, the offer; with
isInitiator false it rebuilds the peer connection and transmits
nothing, so only the designated initiator originates the offer. -/
theorem matched_initiator_sends_one_offer (s : ClientState)
    (hws : s.ws = some ReadyState.OPEN) :
    (onMessage s (ServerMsg.matched true)).2 = [ClientMsg.offer createOffer] ∧
    (onMessage s (ServerMsg.matched true)).1.peerConnection =
      some { localDesc := some createOffer, remoteDesc := none, candidates := [] } ∧
    (onMessage s (ServerMsg.matched false)).2 = [] ∧
    (onMessage s (ServerMsg.matched false)).1.peerConnection =
      some { localDesc := none, remoteDesc := none, candidates := [] } := by
  simp [onMessage, handleMatched, createPeerConnection, closePeerConnection,
    setLocalDescription, appendMessage, updateStatus, sendWs, hws]

/-- Witness for C1 at the concrete waiting state with an open socket. -/
theorem matched_initiator_sends_one_offer_witness :
    (onMessage baseState (ServerMsg.matched true)).2 = [ClientMsg.offer createOffer] ∧
    (onMessage baseState (ServerMsg.matched true)).1.peerConnection =
      some { localDesc := some createOffer, remoteDesc := none, candidates := [] } ∧
    (onMessage baseState (ServerMsg.matched false)).2 = [] ∧
    (onMessage baseState (ServerMsg.matched false)).1.peerConnection =
      some { localDesc := none, remoteDesc := none, candidates := [] } :=
  matched_initiator_sends_one_offer baseState rfl

/-- C2: on an offer message the client transmits exactly one message,
the answer, and afterwards holds a peer connection (created on demand
when none existed) whose remote description is the received offer. -/
theorem offer_builds_pc_and_sends_one_answer (s : ClientState) (payload : Sdp)
    (hws : s.ws = some ReadyState.OPEN) :
    (onMessage s (ServerMsg.offer payload)).2 = [ClientMsg.answer createAnswer] ∧
    ∃ pc, (onMessage s (ServerMsg.offer payload)).1.peerConnection = some pc ∧
      pc.remoteDesc = some payload := by
  cases hpc : s.peerConnection with
  | none =>
      refine ⟨?_, ⟨PC.mk (some createAnswer) (some payload) [], ?_, rfl⟩⟩ <;>
      simp [onMessage, hpc, createPeerConnection, closePeerConnection,
        setRemoteDescription, setLocalDescription, sendWs, hws]
  | some pc =>
      refine ⟨?_, ⟨PC.mk (some createAnswer) (some payload) pc.candidates, ?_, rfl⟩⟩ <;>
      simp [onMessage, hpc, setRemoteDescription, setLocalDescription, sendWs, hws]

/-- Witness for C2: an offer arriving at the waiting state, which has no
peer connection yet. -/
theorem offer_builds_pc_and_sends_one_answer_witness :
    (onMessage baseState (ServerMsg.offer 7)).2 = [ClientMsg.answer createAnswer] ∧
    ∃ pc, (onMessage baseState (ServerMsg.offer 7)).1.peerConnection = some pc ∧
      pc.remoteDesc = some 7 :=
  offer_builds_pc_and_sends_one_answer baseState 7 rfl

/-- C3: a partner_disconnected message returns the client to the waiting
state: connected becomes false, the peer connection is closed, the
remote video source is cleared and the status shows waiting. -/
theorem partner_disconnected_resets_to_waiting (s : ClientState) (message : Option String) :
    (onMessage s (ServerMsg.partner_disconnected message)).1.connected = false ∧
    (onMessage s (ServerMsg.partner_disconnected message)).1.peerConnection = none ∧
    (onMessage s (ServerMsg.partner_disconnected message)).1.remoteVideoSrc = none ∧
    (onMessage s (ServerMsg.partner_disconnected message)).1.statusState = StatusState.waiting ∧
    (onMessage s (ServerMsg.partner_disconnected message)).1.statusText = "Waiting for a stranger..." := by
  simp [onMessage, appendMessage, resetForWaiting, closePeerConnection, updateStatus]

/-- C4 counterexample: at a matched state with a live peer connection,
receiving a status message is not a pure frame effect: it flips the
connected flag and drops the peer connection. -/
theorem status_message_not_frame_counterexample :
    ¬ ((onMessage matchedState (ServerMsg.status (some "hello"))).1.connected = matchedState.connected ∧
       (onMessage matchedState (ServerMsg.status (some "hello"))).1.peerConnection = matchedState.peerConnection) := by
  decide

/-- C4 (amended): a status message resets the client to the waiting
state: connected becomes false, any peer connection is closed, the
status dot shows waiting and the status text is the message payload,
falling back to the default waiting text; nothing is transmitted. -/
theorem status_message_resets_to_waiting (s : ClientState) (message : Option String) :
    (onMessage s (ServerMsg.status message)).1.connected = false ∧
    (onMessage s (ServerMsg.status message)).1.peerConnection = none ∧
    (onMessage s (ServerMsg.status message)).1.statusState = StatusState.waiting ∧
    (onMessage s (ServerMsg.status message)).1.statusText = jsOr message "Waiting for a stranger..." ∧
    (onMessage s (ServerMsg.status message)).2 = [] := by
  simp [onMessage, resetForWaiting, closePeerConnection, updateStatus]

/-- C5: when local media acquisition fails on Start (no stream already
held and getUserMedia rejects), the control channel is never opened (the
socket field is untouched, so connectWebSocket was not reached), the
Start button is re-enabled and the status is set to disconnected. -/
theorem media_failure_blocks_waiting (s : ClientState) (h : s.localStream = false) :
    (startClick s false).ws = s.ws ∧
    (startClick s false).startBtnDisabled = false ∧
    (startClick s false).statusState = StatusState.disconnected ∧
    (startClick s false).statusText = "Permissions required" := by
  simp [startClick, ensureLocalMedia, h, updateStatus, appendMessage]

/-- Witness for C5 at the page-load state, which holds no stream. -/
theorem media_failure_blocks_waiting_witness :
    (startClick freshState false).ws = freshState.ws ∧
    (startClick freshState false).startBtnDisabled = false ∧
    (startClick freshState false).statusState = StatusState.disconnected ∧
    (startClick freshState false).statusText = "Permissions required" :=
  media_failure_blocks_waiting freshState rfl

/-- C6: clicking Next with an OPEN socket transmits exactly one bare
next message and resets the client to waiting (connected false, peer
connection closed); with the socket absent or not OPEN the handler
returns early, transmitting nothing and leaving the state unchanged. -/
theorem next_click_requeues_or_noop (s : ClientState) :
    (s.ws = some ReadyState.OPEN →
      (nextClick s).2 = [ClientMsg.next] ∧
      (nextClick s).1.connected = false ∧
      (nextClick s).1.peerConnection = none) ∧
    (s.ws ≠ some ReadyState.OPEN → nextClick s = (s, [])) := by
  constructor
  · intro h
    simp [nextClick, h, appendMessage, resetForWaiting, closePeerConnection,
      updateStatus, sendWs]
  · intro h
    simp [nextClick, h]

/-- Witness for C6: the open-socket case at the waiting state and the
early-return case at the page-load state. -/
theorem next_click_requeues_or_noop_witness :
    ((nextClick baseState).2 = [ClientMsg.next] ∧
     (nextClick baseState).1.connected = false ∧
     (nextClick baseState).1.peerConnection = none) ∧
    nextClick freshState = (freshState, []) :=
  ⟨(next_click_requeues_or_noop baseState).1 rfl,
   (next_click_requeues_or_noop freshState).2 (by decide)⟩

/-- C7: with the socket OPEN, submitting the chat form transmits a chat
message exactly when the trimmed input is nonempty and the client is
connected, and its payload is exactly the trimmed text; while not
connected the submission transmits nothing at all. -/
theorem chat_sent_iff_nonempty_and_connected (s : ClientState) :
    (s.ws = some ReadyState.OPEN →
      (sendTextMessage s).2 =
        if jsTrim s.chatInput ≠ "" ∧ s.connected = true
        then [ClientMsg.chat (jsTrim s.chatInput)] else []) ∧
    (s.connected = false → (sendTextMessage s).2 = []) := by
  constructor
  · intro hws
    by_cases ht : jsTrim s.chatInput = "" <;> by_cases hc : s.connected = true <;>
      simp [sendTextMessage, ht, hc, sendWs, hws, appendMessage]
  · intro hc
    simp [sendTextMessage, hc]

/-- Witness for C7: a connected client with padded input sends the
trimmed text; the unmatched waiting client sends nothing. -/
theorem chat_sent_iff_nonempty_and_connected_witness :
    (sendTextMessage chatState).2 =
      (if jsTrim chatState.chatInput ≠ "" ∧ chatState.connected = true
       then [ClientMsg.chat (jsTrim chatState.chatInput)] else []) ∧
    (sendTextMessage baseState).2 = [] :=
  ⟨(chat_sent_iff_nonempty_and_connected chatState).1 rfl,
   (chat_sent_iff_nonempty_and_connected baseState).2 rfl⟩

/-- C8: every media message sendFileMessage transmits carries exactly
the fields fileName, mimeType, dataUrl and text of the selected file,
with mimeType falling back to application/octet-stream when the file
reports no type and text equal to "Shared " followed by the file name. -/
theorem media_payload_fields (s : ClientState) (m : ClientMsg)
    (hm : m ∈ (sendFileMessage s).2) :
    ∃ f, s.fileInput = some f ∧
      m = ClientMsg.media f.name
        (if f.type = "" then "application/octet-stream" else f.type)
        (fileToDataUrl f) ("Shared " ++ f.name) := by
  cases hf : s.fileInput with
  | none => simp [sendFileMessage, hf] at hm
  | some file =>
      refine ⟨file, rfl, ?_⟩
      by_cases hc : s.connected = false
      · simp [sendFileMessage, hf, hc] at hm
      · by_cases hsz : file.size > 8 * 1024 * 1024
        · simp [sendFileMessage, hf, hc, hsz] at hm
        · have hm2 : m ∈ sendWs s (ClientMsg.media file.name
              (if file.type = "" then "application/octet-stream" else file.type)
              (fileToDataUrl file) ("Shared " ++ file.name)) := by
            simpa [sendFileMessage, hf, hc, hsz] using hm
          rcases sendWs_eq_nil_or_singleton s (ClientMsg.media file.name
              (if file.type = "" then "application/octet-stream" else file.type)
              (fileToDataUrl file) ("Shared " ++ file.name)) with he | he
          · rw [he] at hm2
            exact absurd hm2 (List.not_mem_nil m)
          · rw [he] at hm2
            simpa using hm2

/-- Witness for C8: the connected client with the small image selected
transmits the media message of the expected shape. -/
theorem media_payload_fields_witness :
    ∃ f, fileState.fileInput = some f ∧
      ClientMsg.media "cat.png" "image/png" "dataurlcat" "Shared cat.png" =
        ClientMsg.media f.name
          (if f.type = "" then "application/octet-stream" else f.type)
          (fileToDataUrl f) ("Shared " ++ f.name) :=
  media_payload_fields fileState
    (ClientMsg.media "cat.png" "image/png" "dataurlcat" "Shared cat.png") (by decide)

/-- C9 counterexample: an unmatched client with an oversized file
selected transmits nothing, but sendFileMessage returns before the size
guard, so the error line is not appended and the input is not cleared. -/
theorem oversized_unmatched_counterexample :
    8 * 1024 * 1024 < bigFile.size ∧
    idleBigFileState.fileInput = some bigFile ∧
    (sendFileMessage idleBigFileState).2 = [] ∧
    ¬ ((sendFileMessage idleBigFileState).1.fileInput = none ∧
       (sendFileMessage idleBigFileState).1.chatLog ≠ idleBigFileState.chatLog) := by
  decide

/-- C9 (amended): no media message is ever transmitted for a file over
8 MiB; when the client is connected the size guard additionally appends
the local error line and clears the file input, while an unconnected
client returns early without any effect. -/
theorem oversized_file_never_transmitted (s : ClientState) (f : JsFile)
    (hf : s.fileInput = some f) (hsz : 8 * 1024 * 1024 < f.size) :
    (sendFileMessage s).2 = [] ∧
    (s.connected = true →
      (sendFileMessage s).1.fileInput = none ∧
      (sendFileMessage s).1.chatLog = s.chatLog ++
        [ChatEntry.mk ChatKind.system "File too large. Max allowed is 8MB for MVP." none]) := by
  by_cases hc : s.connected = true
  · refine ⟨?_, fun _ => ⟨?_, ?_⟩⟩ <;>
      simp [sendFileMessage, hf, hc, hsz, appendMessage]
  · refine ⟨?_, fun h => absurd h hc⟩
    simp [sendFileMessage, hf, hc]

/-- Witness for C9 at the connected client with the oversized file. -/
theorem oversized_file_never_transmitted_witness :
    (sendFileMessage bigFileState).2 = [] ∧
    ((sendFileMessage bigFileState).1.fileInput = none ∧
     (sendFileMessage bigFileState).1.chatLog = bigFileState.chatLog ++
       [ChatEntry.mk ChatKind.system "File too large. Max allowed is 8MB for MVP." none]) :=
  ⟨(oversized_file_never_transmitted bigFileState bigFile rfl (by decide)).1,
   (oversized_file_never_transmitted bigFileState bigFile rfl (by decide)).2 rfl⟩

/-- C10: sendWs transmits exactly when the socket exists and its
readyState is OPEN and silently drops the message otherwise, and every
handler that emits does so through sendWs: whenever the socket is absent
or not OPEN, no handler transmits anything. -/
theorem sendWs_gates_every_transmission (s : ClientState) (m : ClientMsg) :
    sendWs s m = (if s.ws = some ReadyState.OPEN then [m] else []) ∧
    (s.ws ≠ some ReadyState.OPEN →
      (∀ sm : ServerMsg, (onMessage s sm).2 = []) ∧
      (sendTextMessage s).2 = [] ∧
      (sendFileMessage s).2 = [] ∧
      (nextClick s).2 = []) := by
  refine ⟨sendWs_ite s m, fun h => ⟨?_, ?_, ?_, ?_⟩⟩
  · intro sm
    cases sm with
    | connected => simp [onMessage]
    | status message => simp [onMessage]
    | matched i =>
        cases i <;>
          simp [onMessage, handleMatched, setLocalDescription, createPeerConnection,
            closePeerConnection, appendMessage, updateStatus, sendWs_ite, h]
    | offer p =>
        cases hpc : s.peerConnection <;>
          simp [onMessage, hpc, createPeerConnection, closePeerConnection,
            setRemoteDescription, setLocalDescription, sendWs_ite, h]
    | answer p => simp [onMessage]
    | ice_candidate p =>
        cases p <;> cases hpc : s.peerConnection <;> simp [onMessage, hpc, addIceCandidate]
    | chat t => simp [onMessage]
    | media t mt du => simp [onMessage]
    | partner_disconnected message => simp [onMessage]
    | error message => simp [onMessage]
    | unknown => simp [onMessage]
  · by_cases hg : jsTrim s.chatInput = "" ∨ s.connected = false
    · simp [sendTextMessage, hg]
    · simp [sendTextMessage, hg, sendWs_ite, h]
  · cases hf : s.fileInput with
    | none => simp [sendFileMessage, hf]
    | some file =>
        by_cases hc : s.connected = false
        · simp [sendFileMessage, hf, hc]
        · by_cases hsz : file.size > 8 * 1024 * 1024
          · simp [sendFileMessage, hf, hc, hsz]
          · simp [sendFileMessage, hf, hc, hsz, sendWs_ite, h]
  · simp [nextClick, h]

/-- Witness for C10 at the page-load state, whose socket is absent. -/
theorem sendWs_gates_every_transmission_witness :
    (onMessage freshState (ServerMsg.matched true)).2 = [] ∧
    (sendTextMessage freshState).2 = [] ∧
    (sendFileMessage freshState).2 = [] ∧
    (nextClick freshState).2 = [] ∧
    sendWs freshState (ClientMsg.chat "hi") = [] := by
  have h := sendWs_gates_every_transmission freshState (ClientMsg.chat "hi")
  have h2 := h.2 (by decide)
  exact ⟨h2.1 (ServerMsg.matched true), h2.2.1, h2.2.2.1, h2.2.2.2, h.1.trans (by decide)⟩

end LetsConnect
